import Mathlib

/-!
# GuardRail — verification of the audit-ledger and policy-engine core

Shallow embedding of the GuardRail backend (Rust) in Lean 4.

Conventions of the embedding:
* machine bytes are `Nat` values `< 256`, byte strings are `List Nat`;
* Rust `String`/`&str` values are Lean `String`s; SHA-256 input obtained from a
  string takes the code points of its characters, which coincides with UTF-8 on
  the ASCII data (hex digests, RFC3339 timestamps, JSON text) hashed here;
* `i64`/`u32` counters that are always non-negative in the programs are `Nat`;
* database effects are explicit state passing over Lean structures mirroring
  the relational rows;
* calls into external systems (the regorus Rego engine, the EVM and Solana
  RPC endpoints) are parameters of the embedded functions: a `Bool`/`Option`
  argument records the outcome the external call produced.
-/

namespace Guardrail

/-! ## SHA-256 (executable primitive used by `sha2::Sha256` call sites) -/

/-- Truncate to a 32-bit word. -/
def m32 (x : Nat) : Nat := x % 4294967296

/-- 32-bit right rotation. -/
def rotr (x n : Nat) : Nat := m32 ((x >>> n) ||| (x <<< (32 - n)))

/-- Bitwise complement on 32 bits. -/
def not32 (x : Nat) : Nat := x ^^^ 4294967295

/-- SHA-256 round constants. -/
def shaK : List Nat :=
  [1116352408, 1899447441, 3049323471, 3921009573, 961987163,
   1508970993, 2453635748, 2870763221, 3624381080, 310598401,
   607225278, 1426881987, 1925078388, 2162078206, 2614888103,
   3248222580, 3835390401, 4022224774, 264347078, 604807628,
   770255983, 1249150122, 1555081692, 1996064986, 2554220882,
   2821834349, 2952996808, 3210313671, 3336571891, 3584528711,
   113926993, 338241895, 666307205, 773529912, 1294757372,
   1396182291, 1695183700, 1986661051, 2177026350, 2456956037,
   2730485921, 2820302411, 3259730800, 3345764771, 3516065817,
   3600352804, 4094571909, 275423344, 430227734, 506948616,
   659060556, 883997877, 958139571, 1322822218, 1537002063,
   1747873779, 1955562222, 2024104815, 2227730452, 2361852424,
   2428436474, 2756734187, 3204031479, 3329325298]

/-- SHA-256 initial hash words. -/
def shaH0 : List Nat :=
  [1779033703, 3144134277, 1013904242, 2773480762,
   1359893119, 2600822924, 528734635, 1541459225]

/-- Big-endian bytes of `n`, `k` bytes wide (most significant first). -/
def beBytes : Nat → Nat → List Nat
  | 0, _ => []
  | k + 1, n => beBytes k (n / 256) ++ [n % 256]

/-- SHA-256 message padding: `0x80`, zeros, 8-byte big-endian bit length. -/
def shaPad (msg : List Nat) : List Nat :=
  let zeros := (119 - msg.length % 64) % 64
  msg ++ 0x80 :: List.replicate zeros 0 ++ beBytes 8 (8 * msg.length)

/-- Group bytes into big-endian 32-bit words. -/
def bytesToWords : List Nat → List Nat
  | b0 :: b1 :: b2 :: b3 :: rest =>
      (((b0 * 256 + b1) * 256 + b2) * 256 + b3) :: bytesToWords rest
  | _ => []

/-- Split a byte list into 64-byte blocks (fuel bounds the block count). -/
def blocksOfAux : Nat → List Nat → List (List Nat)
  | 0, _ => []
  | _, [] => []
  | fuel + 1, l => l.take 64 :: blocksOfAux fuel (l.drop 64)

/-- Split a byte list into 64-byte blocks. -/
def blocksOf (l : List Nat) : List (List Nat) := blocksOfAux l.length l

/-- Extend the 16-word message schedule by `k` further words. -/
def shaExtend (acc : List Nat) : Nat → List Nat
  | 0 => acc
  | k + 1 =>
      let i := acc.length
      let w15 := acc.getD (i - 15) 0
      let w2 := acc.getD (i - 2) 0
      let s0 := rotr w15 7 ^^^ rotr w15 18 ^^^ (w15 >>> 3)
      let s1 := rotr w2 17 ^^^ rotr w2 19 ^^^ (w2 >>> 10)
      let w := m32 (acc.getD (i - 16) 0 + s0 + acc.getD (i - 7) 0 + s1)
      shaExtend (acc ++ [w]) k

/-- The eight SHA-256 working registers. -/
structure Sha8 where
  a : Nat
  b : Nat
  c : Nat
  d : Nat
  e : Nat
  f : Nat
  g : Nat
  h : Nat

/-- One SHA-256 compression round; `kw` is the pair (round constant, word). -/
def shaStep (s : Sha8) (kw : Nat × Nat) : Sha8 :=
  let bigS1 := rotr s.e 6 ^^^ rotr s.e 11 ^^^ rotr s.e 25
  let ch := (s.e &&& s.f) ^^^ (not32 s.e &&& s.g)
  let t1 := m32 (s.h + bigS1 + ch + kw.1 + kw.2)
  let bigS0 := rotr s.a 2 ^^^ rotr s.a 13 ^^^ rotr s.a 22
  let mj := (s.a &&& s.b) ^^^ (s.a &&& s.c) ^^^ (s.b &&& s.c)
  let t2 := m32 (bigS0 + mj)
  ⟨m32 (t1 + t2), s.a, s.b, s.c, m32 (s.d + t1), s.e, s.f, s.g⟩

/-- Compress a single 64-byte block into the running hash words. -/
def compressBlock (hs : List Nat) (block : List Nat) : List Nat :=
  let ws := shaExtend (bytesToWords block) 48
  let init : Sha8 := ⟨hs.getD 0 0, hs.getD 1 0, hs.getD 2 0, hs.getD 3 0,
                      hs.getD 4 0, hs.getD 5 0, hs.getD 6 0, hs.getD 7 0⟩
  let s := (shaK.zip ws).foldl shaStep init
  [m32 (hs.getD 0 0 + s.a), m32 (hs.getD 1 0 + s.b), m32 (hs.getD 2 0 + s.c),
   m32 (hs.getD 3 0 + s.d), m32 (hs.getD 4 0 + s.e), m32 (hs.getD 5 0 + s.f),
   m32 (hs.getD 6 0 + s.g), m32 (hs.getD 7 0 + s.h)]

/-- SHA-256 of a byte string, as 32 output bytes. -/
def sha256 (msg : List Nat) : List Nat :=
  let hs := (blocksOf (shaPad msg)).foldl compressBlock shaH0
  (hs.map (beBytes 4)).flatten

/-- Lower-case hex digit. -/
def hexDigit (n : Nat) : Char :=
  if n < 10 then Char.ofNat (48 + n) else Char.ofNat (87 + n)

/-- Lower-case hex form of a byte. -/
def byteHex (b : Nat) : List Char := [hexDigit (b / 16), hexDigit (b % 16)]

/-- Lower-case hex encoding of a byte string (`hex::encode`). -/
def hexEncode (bs : List Nat) : String := String.mk ((bs.map byteHex).flatten)

/-- Bytes of a string: code points of its characters (UTF-8 on ASCII data). -/
def strBytes (s : String) : List Nat := s.data.map Char.toNat

/-- `crypto::sha256_hex`: SHA-256 of the data, returned as lower-case hex. -/
def sha256_hex (data : List Nat) : String := hexEncode (sha256 data)

/-- The 64-character all-zero hex string (`"0".repeat(64)`, also the genesis
previous-hash constant `crypto::GENESIS_HASH`). -/
def zeros64 : String :=
  "0000000000000000000000000000000000000000000000000000000000000000"

/-! ## Movement-ledger Merkle tree (movement-ledger/src/main.rs)

The Rust code feeds the two hex strings of a sibling pair into one SHA-256
instance (`hasher.update(&chunk[0]); hasher.update(&chunk[1])`), which hashes
the concatenation of their byte strings.  The `while` loops of the source are
embedded as structurally recursive functions with an explicit fuel argument;
each call site passes a fuel that is proved (or immediately seen) to exceed
the number of iterations the loop performs, so the embedded function computes
exactly what the loop computes. -/

namespace Ledger

/-- Pair combiner: SHA-256 over the ASCII bytes of `left ++ right`, hex. -/
def combine (left right : String) : String :=
  sha256_hex (strBytes left ++ strBytes right)

/-- One `chunks(2)` pass of the level loop: hash adjacent pairs.  A trailing
singleton never occurs on the power-of-two levels the source builds (the Rust
`chunk[1]` would panic there); it is returned unchanged. -/
def pairHashLevel : List String → List String
  | a :: b :: rest => combine a b :: pairHashLevel rest
  | l => l

/-- The padding loop `while len & (len - 1) != 0 { push(last) }`. -/
def padAux : Nat → List String → List String
  | 0, l => l
  | fuel + 1, l =>
      if l.length &&& (l.length - 1) = 0 then l
      else padAux fuel (l ++ [l.getLastD ""])

/-- Pad by duplicating the last element until the length is a power of two.
A fuel of `l.length` strictly exceeds the number of pushes the loop makes. -/
def padPow2 (l : List String) : List String := padAux l.length l

/-- The reduction loop `while len > 1 { pair-hash the level }`. -/
def buildAux : Nat → List String → List String
  | 0, l => l
  | fuel + 1, l => if 1 < l.length then buildAux fuel (pairHashLevel l) else l

/-- `build_merkle_root` of the movement ledger: empty input gives 64 zero hex
characters, a single hash is returned unchanged, otherwise the leaf level is
padded to a power of two and pair-hashed until one value remains. -/
def build_merkle_root (event_hashes : List String) : String :=
  if event_hashes = [] then zeros64
  else if event_hashes.length = 1 then event_hashes.headD ""
  else (buildAux (padPow2 event_hashes).length (padPow2 event_hashes)).headD ""

/-- A recorded proof step: the sibling hash and `"left"` or `"right"`. -/
structure ProofSibling where
  hash : String
  position : String
deriving DecidableEq, Repr

/-- The proof-generation loop: record the sibling at each level, then move to
the pair-hashed level with the halved index. -/
def genAux : Nat → List String → Nat → List ProofSibling
  | 0, _, _ => []
  | fuel + 1, level, index =>
      if 1 < level.length then
        let siblingIndex := if index % 2 = 0 then index + 1 else index - 1
        let pos := if index % 2 = 0 then "right" else "left"
        let entry :=
          if siblingIndex < level.length then
            [ProofSibling.mk (level.getD siblingIndex "") pos]
          else []
        entry ++ genAux fuel (pairHashLevel level) (index / 2)
      else []

/-- `generate_merkle_proof`: empty for lists of at most one hash, otherwise
the sibling path through the padded tree. -/
def generate_merkle_proof (event_hashes : List String) (target_index : Nat) :
    List ProofSibling :=
  if event_hashes.length ≤ 1 then []
  else genAux (padPow2 event_hashes).length (padPow2 event_hashes) target_index

/-- The verifier's running rehash: combine with each sibling on the recorded
side. -/
def verifyFold (eventHash : String) (proof : List ProofSibling) : String :=
  proof.foldl
    (fun cur s => if s.position = "left" then combine s.hash cur else combine cur s.hash)
    eventHash

/-- `verify_merkle_proof`: rehash along the proof and compare with the root. -/
def verify_merkle_proof (eventHash : String) (proof : List ProofSibling)
    (root : String) : Bool :=
  verifyFold eventHash proof == root

end Ledger

/-! ## Shared crypto module (shared/src/crypto.rs) -/

namespace SharedCrypto

/-- `crypto::compute_event_hash`: SHA-256 of the colon-joined textual
fields. -/
def compute_event_hash (sequence_number : Nat) (event_type actor_id payload
    previous_hash timestamp : String) : String :=
  sha256_hex (strBytes (toString sequence_number ++ ":" ++ event_type ++ ":" ++
    actor_id ++ ":" ++ payload ++ ":" ++ previous_hash ++ ":" ++ timestamp))

/-- `crypto::verify_event_hash`: recompute and compare. -/
def verify_event_hash (sequence_number : Nat) (event_type actor_id payload
    previous_hash timestamp expected_hash : String) : Bool :=
  compute_event_hash sequence_number event_type actor_id payload previous_hash
    timestamp == expected_hash

/-- Merkle tree node of the shared module. -/
inductive MerkleNode where
  | node (hash : String) (left right : Option MerkleNode)

/-- The stored hash of a node. -/
def MerkleNode.hash : MerkleNode → String
  | .node h _ _ => h

/-- Parent of two nodes: SHA-256 over the concatenated hex strings. -/
def combineNodes (left right : MerkleNode) : MerkleNode :=
  .node (sha256_hex (strBytes (left.hash ++ right.hash))) (some left) (some right)

/-- One `chunks(2)` pass of the shared tree builder; a trailing singleton
chunk is paired with itself (`chunk.get(1).unwrap_or(left)`). -/
def pairNodes : List MerkleNode → List MerkleNode
  | a :: b :: rest => combineNodes a b :: pairNodes rest
  | [a] => [combineNodes a a]
  | [] => []

/-- The `while nodes.len() > 1` loop of `build_merkle_tree`. -/
def buildTreeAux : Nat → List MerkleNode → List MerkleNode
  | 0, l => l
  | fuel + 1, l => if 1 < l.length then buildTreeAux fuel (pairNodes l) else l

/-- `crypto::build_merkle_tree`: leaves, one odd-length duplication of the
last leaf, then bottom-up pairing (each later odd level pairs its last node
with itself). -/
def build_merkle_tree (hashes : List String) : Option MerkleNode :=
  if hashes = [] then none
  else
    let leaves := hashes.map (fun h => MerkleNode.node h none none)
    let nodes :=
      if leaves.length % 2 = 1 then
        leaves ++ [leaves.getLastD (MerkleNode.node "" none none)]
      else leaves
    (buildTreeAux nodes.length nodes).head?

/-- `crypto::compute_merkle_root`: root hash of the built tree. -/
def compute_merkle_root (hashes : List String) : Option String :=
  (build_merkle_tree hashes).map MerkleNode.hash

end SharedCrypto

/-! ## Movement-ledger events and chain verification -/

/-- `EventType` (shared/src/types.rs). -/
inductive EventType where
  | policyDecision
  | identityCreated
  | identityUpdated
  | keyAttached
  | keyDetached
  | credentialAdded
  | credentialUpdated
  | approvalRequested
  | approvalGranted
  | approvalRejected
  | policyCreated
  | policyUpdated
  | anchorBatchCreated
  | systemEvent
deriving DecidableEq, Repr

/-- The text `format!("{:?}", event_type)` produces: the Rust `Debug` form of
the variant, which is the variant identifier. -/
def EventType.debugStr : EventType → String
  | .policyDecision => "PolicyDecision"
  | .identityCreated => "IdentityCreated"
  | .identityUpdated => "IdentityUpdated"
  | .keyAttached => "KeyAttached"
  | .keyDetached => "KeyDetached"
  | .credentialAdded => "CredentialAdded"
  | .credentialUpdated => "CredentialUpdated"
  | .approvalRequested => "ApprovalRequested"
  | .approvalGranted => "ApprovalGranted"
  | .approvalRejected => "ApprovalRejected"
  | .policyCreated => "PolicyCreated"
  | .policyUpdated => "PolicyUpdated"
  | .anchorBatchCreated => "AnchorBatchCreated"
  | .systemEvent => "SystemEvent"

/-- Little-endian bytes of `n`, `k` bytes wide (`i64::to_le_bytes` for the
non-negative sequence numbers the ledger assigns). -/
def leBytes : Nat → Nat → List Nat
  | 0, _ => []
  | k + 1, n => n % 256 :: leBytes k (n / 256)

/-- A `movement_events` row.  `payload` is the canonical serialized JSON text
(`payload.to_string()`), `actor_id` the 16 raw UUID bytes, `created_at` the
RFC3339 text of the timestamp; identifiers are opaque `Nat`s. -/
structure MovementEvent where
  id : Nat
  sequence_number : Nat
  event_type : EventType
  actor_id : List Nat
  policy_decision_id : Option Nat
  payload : String
  previous_hash : String
  event_hash : String
  anchor_batch_id : Option Nat
  created_at : String
deriving DecidableEq, Repr

namespace Ledger

/-- The ledger's `compute_event_hash`: SHA-256 over little-endian sequence
bytes, the `Debug` text of the event type, the raw actor-id bytes, the payload
text, the previous hash and the RFC3339 timestamp. -/
def compute_event_hash (sequence_number : Nat) (event_type : EventType)
    (actor_id : List Nat) (payload previous_hash timestamp : String) : String :=
  sha256_hex (leBytes 8 sequence_number ++ strBytes event_type.debugStr ++
    actor_id ++ strBytes payload ++ strBytes previous_hash ++ strBytes timestamp)

/-- Recomputation of a stored event's hash from its stored fields. -/
def recomputeHash (e : MovementEvent) : String :=
  compute_event_hash e.sequence_number e.event_type e.actor_id e.payload
    e.previous_hash e.created_at

/-- The two checks `verify_chain_impl` makes for the pair (prev, curr). -/
def pairErrors (prev curr : MovementEvent) : List String :=
  (if curr.previous_hash ≠ prev.event_hash then
    ["Chain break at sequence " ++ toString curr.sequence_number ++
      ": previous_hash mismatch"]
  else []) ++
  (if recomputeHash curr ≠ curr.event_hash then
    ["Hash mismatch at sequence " ++ toString curr.sequence_number ++
      ": computed " ++ recomputeHash curr ++ " != stored " ++ curr.event_hash]
  else [])

/-- The verification loop `for i in 1..events.len()`: each iteration checks
`events[i]` against `events[i - 1]`. -/
def chainErrors : List MovementEvent → List String
  | prev :: curr :: rest => pairErrors prev curr ++ chainErrors (curr :: rest)
  | _ => []

/-- Result record of `verify_chain_impl`. -/
structure ChainVerifyResult where
  valid : Bool
  events_checked : Nat
  from_sequence : Nat
  to_sequence : Nat
  errors : List String
deriving DecidableEq, Repr

/-- `verify_chain_impl`, applied to the window the database query returns
(the events with sequence number in range, ascending, at most 10000). -/
def verify_chain_impl (fromSeq : Nat) (events : List MovementEvent) :
    ChainVerifyResult :=
  let errors := chainErrors events
  { valid := errors.isEmpty
    events_checked := events.length
    from_sequence := fromSeq
    to_sequence := ((events.getLast?).map MovementEvent.sequence_number).getD fromSeq
    errors := errors }

end Ledger

/-! ## Error type (shared/src/errors.rs)

Payloads carried by the Rust variants (`String` messages, the sqlx / serde
error values, the `i64` sequence) are embedded as `String` or `Nat` data; they
do not affect the code mapping. -/

/-- `GuardRailError`, all variants. -/
inductive GuardRailError where
  | database (msg : String)
  | json (msg : String)
  | authentication (msg : String)
  | authorization (msg : String)
  | invalidToken (msg : String)
  | tokenExpired
  | identityNotFound (msg : String)
  | identityAlreadyExists (msg : String)
  | keyAlreadyBound (msg : String)
  | policyNotFound (msg : String)
  | policyEvaluation (msg : String)
  | invalidRego (msg : String)
  | eventNotFound (msg : String)
  | hashChainViolation (seq : Nat)
  | approvalNotFound (msg : String)
  | approvalAlreadyProcessed
  | approvalExpired
  | anchorNotFound (msg : String)
  | blockchainTransaction (msg : String)
  | chainAnchor (msg : String)
  | validation (msg : String)
  | invalidField (field msg : String)
  | invalidInput (msg : String)
  | cryptoError (msg : String)
  | unauthorized (msg : String)
  | notFound (msg : String)
  | serviceUnavailable (msg : String)
  | kycProvider (msg : String)
  | externalService (msg : String)
  | internal (msg : String)
  | notImplemented (msg : String)
  | rateLimitExceeded
  | conflict (msg : String)
deriving DecidableEq, Repr

/-- `GuardRailError::error_code`. -/
def GuardRailError.error_code : GuardRailError → String
  | .database _ => "DATABASE_ERROR"
  | .authentication _ => "AUTHENTICATION_FAILED"
  | .authorization _ => "AUTHORIZATION_DENIED"
  | .invalidToken _ => "INVALID_TOKEN"
  | .tokenExpired => "TOKEN_EXPIRED"
  | .unauthorized _ => "UNAUTHORIZED"
  | .identityNotFound _ => "IDENTITY_NOT_FOUND"
  | .identityAlreadyExists _ => "IDENTITY_ALREADY_EXISTS"
  | .keyAlreadyBound _ => "KEY_ALREADY_BOUND"
  | .policyNotFound _ => "POLICY_NOT_FOUND"
  | .policyEvaluation _ => "POLICY_EVALUATION_FAILED"
  | .invalidRego _ => "INVALID_REGO"
  | .eventNotFound _ => "EVENT_NOT_FOUND"
  | .hashChainViolation _ => "HASH_CHAIN_VIOLATION"
  | .approvalNotFound _ => "APPROVAL_NOT_FOUND"
  | .approvalAlreadyProcessed => "APPROVAL_ALREADY_PROCESSED"
  | .approvalExpired => "APPROVAL_EXPIRED"
  | .anchorNotFound _ => "ANCHOR_NOT_FOUND"
  | .blockchainTransaction _ => "BLOCKCHAIN_TX_FAILED"
  | .chainAnchor _ => "CHAIN_ANCHOR_ERROR"
  | .validation _ => "VALIDATION_ERROR"
  | .invalidField _ _ => "INVALID_FIELD"
  | .invalidInput _ => "INVALID_INPUT"
  | .cryptoError _ => "CRYPTO_ERROR"
  | .kycProvider _ => "KYC_PROVIDER_ERROR"
  | .externalService _ => "EXTERNAL_SERVICE_ERROR"
  | .serviceUnavailable _ => "SERVICE_UNAVAILABLE"
  | .notFound _ => "NOT_FOUND"
  | .internal _ => "INTERNAL_ERROR"
  | .notImplemented _ => "NOT_IMPLEMENTED"
  | .rateLimitExceeded => "RATE_LIMIT_EXCEEDED"
  | .conflict _ => "RESOURCE_CONFLICT"
  | .json _ => "JSON_ERROR"

/-! ## Policy engine (policy-engine/src/main.rs)

The regorus engine is an external collaborator.  A query result's bindings,
as read by `parse_decision`, are embedded as the three optional values the
code looks up (`deny`, `require_approval`, `reasons`); a non-object binding is
`none`.  A Rego value is embedded by what the three accessors the code calls
(`as_array`, `as_string`, `as_bool`) see. -/

namespace PolicyEngine

/-- A regorus value as observed through `as_array` / `as_string` /
`as_bool`. -/
inductive RegoValue where
  | arr (items : List RegoValue)
  | str (s : String)
  | boolean (b : Bool)
  | other

/-- The three keys `parse_decision` reads from an object binding. -/
structure QueryBinding where
  deny : Option RegoValue
  require_approval : Option RegoValue
  reasons : Option RegoValue

/-- `Decision` (shared/src/types.rs). -/
inductive Decision where
  | allow
  | deny
  | requireApproval
deriving DecidableEq, Repr

/-- `PolicyEvalResult`. -/
structure PolicyEvalResult where
  decision : Decision
  reasons : List String
  required_approvers : List String
deriving DecidableEq, Repr

/-- The string elements of a Rego array (`as_string` succeeding). -/
def strItems (items : List RegoValue) : List String :=
  items.filterMap fun v => match v with | .str s => some s | _ => none

/-- Push each string not already present (the `!reasons.contains(&s)`
check). -/
def pushNew (acc : List String) (ss : List String) : List String :=
  ss.foldl (fun acc s => if acc.contains s then acc else acc ++ [s]) acc

/-- The `deny` block of the loop body: a non-empty array sets DENY and
appends its strings to the reasons; `deny = true` sets DENY alone. -/
def stepDeny (st : Decision × List String × List String)
    (dny : Option RegoValue) : Decision × List String × List String :=
  match dny with
  | some (.arr items) =>
      if !items.isEmpty then (Decision.deny, st.2.1 ++ strItems items, st.2.2)
      else st
  | some (.boolean true) => (Decision.deny, st.2.1, st.2.2)
  | _ => st

/-- The `require_approval` block: a non-empty array (when the decision is not
already DENY) sets REQUIRE_APPROVAL and appends the approver strings;
`require_approval = true` sets REQUIRE_APPROVAL alone. -/
def stepRA (st : Decision × List String × List String)
    (ra : Option RegoValue) : Decision × List String × List String :=
  match ra with
  | some (.arr items) =>
      if !items.isEmpty && st.1 ≠ Decision.deny then
        (Decision.requireApproval, st.2.1, st.2.2 ++ strItems items)
      else st
  | some (.boolean true) =>
      if st.1 ≠ Decision.deny then (Decision.requireApproval, st.2.1, st.2.2)
      else st
  | _ => st

/-- The `reasons` block: push each new string of a `reasons` array. -/
def stepReasons (st : Decision × List String × List String)
    (rsn : Option RegoValue) : Decision × List String × List String :=
  match rsn with
  | some (.arr items) => (st.1, pushNew st.2.1 (strItems items), st.2.2)
  | _ => st

/-- The body of `parse_decision`'s `for result in results` loop: a non-object
binding is skipped, otherwise the three blocks run in order. -/
def parseStep (st : Decision × List String × List String)
    (r : Option QueryBinding) : Decision × List String × List String :=
  match r with
  | none => st
  | some obj => stepReasons (stepRA (stepDeny st obj.deny) obj.require_approval) obj.reasons

/-- The loop of `parse_decision` over the query results, in order. -/
def parseLoop (st : Decision × List String × List String) :
    List (Option QueryBinding) → Decision × List String × List String
  | [] => st
  | r :: rest => parseLoop (parseStep st r) rest

/-- `PolicyEngine::parse_decision`: fold the results starting from the ALLOW
default. -/
def parse_decision (results : List (Option QueryBinding)) : PolicyEvalResult :=
  let (decision, reasons, approvers) := parseLoop (Decision.allow, [], []) results
  { decision := decision, reasons := reasons, required_approvers := approvers }

/-- A `policies` row (the fields the embedded operations touch). -/
structure PolicyRow where
  id : Nat
  name : String
  version : String
  rego_source : String
  is_active : Bool
  created_at : Nat
deriving DecidableEq, Repr

/-- An `identities` row (the fields `check_action_impl` reads). -/
structure IdentityRow where
  id : Nat
  identity_type : String
  display_name : String
  is_active : Bool
deriving DecidableEq, Repr

/-- A `policy_decisions` row. -/
structure DecisionRow where
  id : Nat
  identity_id : Nat
  policy_id : Nat
  policy_version : String
  decision : Decision
  reasons : List String
  required_approvers : List String
  created_at : Nat
deriving DecidableEq, Repr

/-- The database state the policy engine touches, together with the movement
ledger's `movement_events` table (which only the ledger service writes). -/
structure PolicyState where
  identities : List IdentityRow
  policies : List PolicyRow
  decisions : List DecisionRow
  events : List MovementEvent
deriving DecidableEq, Repr

/-- Outcome record of `check_action_impl` (`PolicyDecision` response). -/
structure PolicyDecisionOut where
  decision_id : Nat
  decision : Decision
  reasons : List String
  required_approvers : List String
  policy_id : Nat
  policy_version : String
deriving DecidableEq, Repr

/-- `ORDER BY created_at DESC LIMIT 1` over the active policies. -/
def newestActivePolicy (ps : List PolicyRow) : Option PolicyRow :=
  (ps.filter (fun p => p.is_active)).foldl
    (fun acc p =>
      match acc with
      | none => some p
      | some q => if q.created_at < p.created_at then some p else some q)
    none

/-- `check_action_impl`.  The regorus evaluation of the composed input is the
external parameter `evalOutcome` (`.error` when `engine.evaluate` failed).
The function returns the handler result plus the state after it ran: it reads
`identities` and `policies`, inserts at most one `policy_decisions` row, and
never touches `movement_events`. -/
def check_action_impl (st : PolicyState) (identity_id : Nat)
    (evalOutcome : Except GuardRailError PolicyEvalResult)
    (decision_id now : Nat) :
    Except GuardRailError PolicyDecisionOut × PolicyState :=
  match st.identities.find? (fun i => i.id == identity_id && i.is_active) with
  | none =>
      (.error (.identityNotFound (toString identity_id)), st)
  | some _ =>
    match evalOutcome with
    | .error e => (.error e, st)
    | .ok evalResult =>
      let policy := newestActivePolicy st.policies
      let st' :=
        match policy with
        | some p =>
            { st with decisions := st.decisions ++
                [{ id := decision_id, identity_id := identity_id,
                   policy_id := p.id, policy_version := p.version,
                   decision := evalResult.decision,
                   reasons := evalResult.reasons,
                   required_approvers := evalResult.required_approvers,
                   created_at := now }] }
        | none => st
      (.ok { decision_id := decision_id,
             decision := evalResult.decision,
             reasons := evalResult.reasons,
             required_approvers := evalResult.required_approvers,
             policy_id := (policy.map PolicyRow.id).getD 0,
             policy_version := (policy.map PolicyRow.version).getD "" },
       st')

/-- `create_policy_impl`.  Validation first loads the source into a throwaway
engine; `regoOk` is the outcome of that external `add_policy` call and
`engineMsg` the engine's message on failure (`load_policy` wraps it in
`GuardRailError::PolicyEvaluation`).  Only after successful validation is the
row inserted. -/
def create_policy_impl (policies : List PolicyRow) (name rego_source : String)
    (regoOk : Bool) (engineMsg : String) (newId now : Nat) :
    Except GuardRailError PolicyRow × List PolicyRow :=
  if regoOk then
    let p : PolicyRow :=
      { id := newId, name := name, version := "1.0.0",
        rego_source := rego_source, is_active := true, created_at := now }
    (.ok p, policies ++ [p])
  else
    (.error (.policyEvaluation ("Failed to load policy: " ++ engineMsg)),
     policies)

end PolicyEngine

/-! ## Chain anchor (chain-anchor/src/main.rs)

The EVM and Solana publications are external calls; their outcomes enter the
embedding as parameters: `ethPresent`/`solPresent` say whether the optional
adapter was initialized (`state.ethereum`/`state.solana` is `Some`), and
`ethOutcome`/`solOutcome` give the `(tx identifier, block or slot)` pair on
success or `none` for a failed publication.  The batcher's own copy of
`build_merkle_root` is line-identical to the movement ledger's except that it
spells the power-of-two test `count_ones() != 1` instead of
`len & (len - 1) != 0`; the two tests agree on every positive length, so the
ledger embedding is reused. -/

namespace ChainAnchor

/-- `AnchorStatus` (shared/src/types.rs). -/
inductive AnchorStatus where
  | pending
  | anchoring
  | confirmed
  | failed
deriving DecidableEq, Repr

/-- An `anchor_batches` row. -/
structure AnchorBatch where
  id : Nat
  merkle_root : String
  start_sequence : Nat
  end_sequence : Nat
  event_count : Nat
  ethereum_tx_hash : Option String
  ethereum_block : Option Nat
  solana_tx_signature : Option String
  solana_slot : Option Nat
  status : AnchorStatus
  anchored_at : Option Nat
deriving DecidableEq, Repr

/-- Anchoring configuration (the fields the batch path reads). -/
structure AnchorConfig where
  batch_size : Nat
  ethereum_enabled : Bool
  solana_enabled : Bool
deriving DecidableEq, Repr

/-- The adapters held in the application state and the outcome each would
produce if called: `none` outcome means the publication fails. -/
structure SubstrateEnv where
  ethPresent : Bool
  solPresent : Bool
  ethOutcome : Option (String × Nat)
  solOutcome : Option (String × Nat)
deriving DecidableEq, Repr

/-- Result of the publication section shared by `create_and_anchor_batch`
(lines 363-403) and `retry_batch_impl` (lines 707-745): the recorded
transaction fields and the `failed` flag. -/
structure PubResult where
  eth : Option (String × Nat)
  sol : Option (String × Nat)
  failed : Bool
deriving DecidableEq, Repr

/-- The publication section: Ethereum is attempted when enabled and its
adapter is present; Solana is attempted when enabled, its adapter is present
and nothing failed yet.  An enabled substrate whose adapter is absent is
skipped without setting `failed`. -/
def anchorPublish (cfg : AnchorConfig) (env : SubstrateEnv) : PubResult :=
  let ethAttempted := cfg.ethereum_enabled && env.ethPresent
  let ethFailed := ethAttempted && env.ethOutcome.isNone
  let solAttempted := cfg.solana_enabled && !ethFailed && env.solPresent
  let solFailed := solAttempted && env.solOutcome.isNone
  { eth := if ethAttempted then env.ethOutcome else none
    sol := if solAttempted then env.solOutcome else none
    failed := ethFailed || solFailed }

/-- The database state the batcher touches. -/
structure AnchorDB where
  events : List MovementEvent
  batches : List AnchorBatch
deriving DecidableEq, Repr

/-- `AnchorResult` response record. -/
structure AnchorResult where
  batch_id : Nat
  merkle_root : String
  event_count : Nat
  ethereum_tx_hash : Option String
  solana_tx_signature : Option String
  status : AnchorStatus
deriving DecidableEq, Repr

/-- `SELECT ... WHERE anchor_batch_id IS NULL ORDER BY sequence_number ASC
LIMIT batch_size`; the `events` table is kept in ascending sequence order. -/
def selectUnanchored (events : List MovementEvent) (batchSize : Nat) :
    List MovementEvent :=
  (events.filter (fun e => e.anchor_batch_id = none)).take batchSize

/-- SQL `COALESCE(new, old)`. -/
def coalesce (new old : Option α) : Option α :=
  match new with
  | some v => some v
  | none => old

/-- `create_and_anchor_batch`: select unanchored events, build the Merkle
root, insert a PENDING batch, move it to ANCHORING, publish, then record
CONFIRMED (with `anchored_at` and event association) or FAILED (with
neither). -/
def create_and_anchor_batch (db : AnchorDB) (cfg : AnchorConfig)
    (env : SubstrateEnv) (batch_id now : Nat) :
    Option AnchorResult × AnchorDB :=
  let selected := selectUnanchored db.events cfg.batch_size
  if selected.isEmpty then (none, db)
  else
    let event_hashes := selected.map MovementEvent.event_hash
    let selectedIds := selected.map MovementEvent.id
    let start_sequence := (selected.head?.map MovementEvent.sequence_number).getD 0
    let end_sequence := ((selected.getLast?).map MovementEvent.sequence_number).getD 0
    let event_count := selected.length
    let merkle_root := Ledger.build_merkle_root event_hashes
    let pub := anchorPublish cfg env
    let status := if pub.failed then AnchorStatus.failed else AnchorStatus.confirmed
    let anchored_at := if !pub.failed then some now else none
    let batch : AnchorBatch :=
      { id := batch_id, merkle_root := merkle_root,
        start_sequence := start_sequence, end_sequence := end_sequence,
        event_count := event_count,
        ethereum_tx_hash := pub.eth.map Prod.fst,
        ethereum_block := pub.eth.map Prod.snd,
        solana_tx_signature := pub.sol.map Prod.fst,
        solana_slot := pub.sol.map Prod.snd,
        status := status, anchored_at := anchored_at }
    let events' :=
      if !pub.failed then
        db.events.map fun e =>
          if selectedIds.contains e.id then { e with anchor_batch_id := some batch_id }
          else e
      else db.events
    (some { batch_id := batch_id, merkle_root := merkle_root,
            event_count := event_count,
            ethereum_tx_hash := pub.eth.map Prod.fst,
            solana_tx_signature := pub.sol.map Prod.fst,
            status := status },
     { events := events', batches := db.batches ++ [batch] })

/-- `retry_batch_impl`: allowed only on FAILED batches; re-runs the
publication section with the stored root and count, COALESCEs the substrate
fields and `anchored_at` into the batch row, and returns.  (It updates no
`movement_events` row.) -/
def retry_batch_impl (db : AnchorDB) (cfg : AnchorConfig) (env : SubstrateEnv)
    (id now : Nat) : Except GuardRailError AnchorResult × AnchorDB :=
  match db.batches.find? (fun b => b.id == id) with
  | none => (.error (.notFound ("Batch " ++ toString id ++ " not found")), db)
  | some batch =>
    if batch.status ≠ AnchorStatus.failed then
      (.error (.invalidInput "Can only retry failed batches"), db)
    else
      let pub := anchorPublish cfg env
      let status := if pub.failed then AnchorStatus.failed else AnchorStatus.confirmed
      let anchored_at := if !pub.failed then some now else none
      let batch' : AnchorBatch :=
        { batch with
          status := status,
          ethereum_tx_hash := coalesce (pub.eth.map Prod.fst) batch.ethereum_tx_hash,
          ethereum_block := coalesce (pub.eth.map Prod.snd) batch.ethereum_block,
          solana_tx_signature := coalesce (pub.sol.map Prod.fst) batch.solana_tx_signature,
          solana_slot := coalesce (pub.sol.map Prod.snd) batch.solana_slot,
          anchored_at := coalesce anchored_at batch.anchored_at }
      (.ok { batch_id := id, merkle_root := batch.merkle_root,
             event_count := batch.event_count,
             ethereum_tx_hash := pub.eth.map Prod.fst,
             solana_tx_signature := pub.sol.map Prod.fst,
             status := status },
       { db with batches := db.batches.map fun b => if b.id == id then batch' else b })

end ChainAnchor

/-! ## Specification-side definitions

These re-state, in the spec's own words, what a source function is claimed to
compute; the theorems below compare them with the source embeddings. -/

namespace Ledger

/-- Spec form of the padding: append copies of the last element so the level
size becomes the next power of two (a closed formula instead of the loop). -/
def padSpec (l : List String) : List String :=
  l ++ List.replicate (2 ^ Nat.clog 2 l.length - l.length) (l.getLastD "")

/-- Spec form of the Merkle root: zeros for the empty list, a single leaf
unchanged, otherwise pad to a power of two and pair-hash level by level. -/
def merkleRootSpec (l : List String) : String :=
  if l = [] then zeros64
  else if l.length = 1 then l.headD ""
  else (buildAux (padSpec l).length (padSpec l)).headD ""

/-- Spec form of the verification report: for every adjacent pair of the
window (that is, for every event after the first), the linkage check and the
recomputation check. -/
def specErrors (events : List MovementEvent) : List String :=
  ((events.zip events.tail).map fun pc => pairErrors pc.1 pc.2).flatten

end Ledger

namespace PolicyEngine

/-- Whether a `deny` / `require_approval` value signals: a non-empty array or
the boolean `true`. -/
def valueSignal : Option RegoValue → Bool
  | some (.arr items) => !items.isEmpty
  | some (.boolean true) => true
  | _ => false

/-- The strings an array value contributes (nothing otherwise). -/
def valueStrs : Option RegoValue → List String
  | some (.arr items) => strItems items
  | _ => []

/-- Whether one query result carries a DENY signal: a non-empty `deny` array
or `deny = true`. -/
def denySignal (r : Option QueryBinding) : Bool :=
  match r with
  | some obj => valueSignal obj.deny
  | none => false

/-- Whether one query result carries a REQUIRE_APPROVAL signal: a non-empty
`require_approval` array or `require_approval = true`. -/
def raSignal (r : Option QueryBinding) : Bool :=
  match r with
  | some obj => valueSignal obj.require_approval
  | none => false

/-- The deny strings one query result contributes. -/
def denyStrs1 (r : Option QueryBinding) : List String :=
  match r with
  | some obj => valueStrs obj.deny
  | none => []

/-- The approver strings one query result contributes. -/
def raStrs1 (r : Option QueryBinding) : List String :=
  match r with
  | some obj => valueStrs obj.require_approval
  | none => []

/-- All deny strings of a result list. -/
def denyStrs (results : List (Option QueryBinding)) : List String :=
  (results.map denyStrs1).flatten

/-- All approver strings of a result list. -/
def raStrs (results : List (Option QueryBinding)) : List String :=
  (results.map raStrs1).flatten

/-- The strings one query result's `reasons` key contributes. -/
def reasonStrs1 (r : Option QueryBinding) : List String :=
  match r with
  | some obj => valueStrs obj.reasons
  | none => []

end PolicyEngine

/-! ## Concrete sample data used by witnesses and counterexamples -/

/-- The canonical serialization of the empty JSON object. -/
def emptyJson : String := "\x7b\x7d"

/-- A fixed RFC3339 timestamp text. -/
def sampleTs : String := "2024-01-01T00:00:00+00:00"

/-- UUID `00000000-0000-0000-0000-000000000001` as 16 raw bytes. -/
def sampleActorBytes : List Nat := List.replicate 15 0 ++ [1]

/-- The same UUID in hyphenated text form. -/
def sampleActorStr : String := "00000000-0000-0000-0000-000000000001"

/-- A stored event whose `event_hash` does not match the recomputation from
its stored fields (the stored hash is the all-zero string). -/
def tamperedEvent : MovementEvent :=
  { id := 1, sequence_number := 1, event_type := .systemEvent,
    actor_id := List.replicate 16 0, policy_decision_id := none,
    payload := emptyJson, previous_hash := zeros64, event_hash := zeros64,
    anchor_batch_id := none, created_at := sampleTs }

/-- A policy-engine state with one active identity and one active policy. -/
def samplePolicyState : PolicyEngine.PolicyState :=
  { identities := [{ id := 7, identity_type := "HUMAN", display_name := "a",
                     is_active := true }],
    policies := [{ id := 3, name := "p", version := "1.0.0",
                   rego_source := "package guardrail", is_active := true,
                   created_at := 5 }],
    decisions := [], events := [] }

/-- An evaluator outcome that allows the action. -/
def sampleAllowEval : PolicyEngine.PolicyEvalResult :=
  { decision := .allow, reasons := [], required_approvers := [] }

/-- The spec's scenario 6 query result:
`deny = ["kyc_missing"]`, `require_approval = ["admin"]`. -/
def sampleResults : List (Option PolicyEngine.QueryBinding) :=
  [some { deny := some (.arr [.str "kyc_missing"]),
          require_approval := some (.arr [.str "admin"]),
          reasons := none }]

/-- Two unanchored ledger events (ascending sequence order). -/
def unanchoredEvents : List MovementEvent :=
  [{ id := 1, sequence_number := 1, event_type := .systemEvent,
     actor_id := List.replicate 16 0, policy_decision_id := none,
     payload := emptyJson, previous_hash := zeros64, event_hash := "aa",
     anchor_batch_id := none, created_at := sampleTs },
   { id := 2, sequence_number := 2, event_type := .systemEvent,
     actor_id := List.replicate 16 0, policy_decision_id := none,
     payload := emptyJson, previous_hash := "aa", event_hash := "bb",
     anchor_batch_id := none, created_at := sampleTs }]

/-- A database with one unanchored event and no batches. -/
def dbOneEvent : ChainAnchor.AnchorDB :=
  { events := [(unanchoredEvents.headD tamperedEvent)], batches := [] }

/-- A FAILED batch covering the two unanchored events. -/
def failedBatch : ChainAnchor.AnchorBatch :=
  { id := 5, merkle_root := "cc", start_sequence := 1, end_sequence := 2,
    event_count := 2, ethereum_tx_hash := none, ethereum_block := none,
    solana_tx_signature := none, solana_slot := none,
    status := .failed, anchored_at := none }

/-- A database holding the two unanchored events and the FAILED batch. -/
def dbFailedBatch : ChainAnchor.AnchorDB :=
  { events := unanchoredEvents, batches := [failedBatch] }

/-- Configuration with only Ethereum enabled. -/
def cfgEthOnly : ChainAnchor.AnchorConfig :=
  { batch_size := 10, ethereum_enabled := true, solana_enabled := false }

/-- Configuration with both substrates enabled. -/
def cfgBoth : ChainAnchor.AnchorConfig :=
  { batch_size := 10, ethereum_enabled := true, solana_enabled := true }

/-- Substrate environment: adapters initialized, both publications succeed. -/
def envBothOk : ChainAnchor.SubstrateEnv :=
  { ethPresent := true, solPresent := true,
    ethOutcome := some ("0xeth", 100), solOutcome := some ("solSig", 200) }

/-- Substrate environment: Ethereum adapter initialized, publication fails. -/
def envEthFails : ChainAnchor.SubstrateEnv :=
  { ethPresent := true, solPresent := false, ethOutcome := none,
    solOutcome := none }

/-- Substrate environment: no adapter initialized (enabled but
misconfigured). -/
def envAbsent : ChainAnchor.SubstrateEnv :=
  { ethPresent := false, solPresent := false, ethOutcome := none,
    solOutcome := none }

/-- The anchor result of the failed-publication run on `dbOneEvent`. -/
def wAnchorResult : ChainAnchor.AnchorResult :=
  { batch_id := 9, merkle_root := "aa", event_count := 1,
    ethereum_tx_hash := none, solana_tx_signature := none, status := .failed }

/-- The batch row of the failed-publication run on `dbOneEvent`. -/
def wAnchorBatch : ChainAnchor.AnchorBatch :=
  { id := 9, merkle_root := "aa", start_sequence := 1, end_sequence := 1,
    event_count := 1, ethereum_tx_hash := none, ethereum_block := none,
    solana_tx_signature := none, solana_slot := none, status := .failed,
    anchored_at := none }

/-- The database after the failed-publication run on `dbOneEvent`. -/
def wAnchorDB : ChainAnchor.AnchorDB :=
  { events := dbOneEvent.events, batches := [wAnchorBatch] }

/-! ## Theorems -/

set_option maxRecDepth 8000

/-- NIST test vector, checking the executable SHA-256 primitive. -/
theorem sha256_abc_vector :
    sha256_hex (strBytes "abc") =
      "ba7816bf8f01cfea414140de5dae2223b00361a396177a9cb410ff61f20015ad" := by
  decide

/-- The verification loop equals the adjacent-pair enumeration. -/
theorem chainErrors_eq_specErrors (events : List MovementEvent) :
    Ledger.chainErrors events = Ledger.specErrors events := by
  induction events with
  | nil => rfl
  | cons a rest ih =>
    cases rest with
    | nil => rfl
    | cons b rest2 =>
      simp only [Ledger.chainErrors, Ledger.specErrors, List.tail_cons,
        List.zip_cons_cons, List.map_cons, List.flatten_cons] at ih ⊢
      rw [ih]

/-- C3 (corrected).  For every window of stored events, `VerifyChain` reports,
for each event after the first one of the window, a previous-hash discrepancy
when its `previous_hash` differs from the prior event's `event_hash` and a
hash discrepancy when its stored `event_hash` differs from the recomputation
from its stored fields; the first event of the window is not itself
re-verified.  It never stops early (the whole window is counted), and the
returned `valid` flag is true iff the discrepancy list is empty. -/
theorem verify_chain_reports_tail_window (fromSeq : Nat)
    (events : List MovementEvent) :
    ((Ledger.verify_chain_impl fromSeq events).valid = true ↔
      (Ledger.verify_chain_impl fromSeq events).errors = []) ∧
    (Ledger.verify_chain_impl fromSeq events).errors = Ledger.specErrors events ∧
    (Ledger.verify_chain_impl fromSeq events).events_checked = events.length := by
  refine ⟨?_, ?_, rfl⟩
  · simp [Ledger.verify_chain_impl, List.isEmpty_iff]
  · simpa [Ledger.verify_chain_impl] using chainErrors_eq_specErrors events

/-- C3 counterexample.  A window whose first event has a stored hash that does
not match the recomputation from its stored fields is reported fully valid
with an empty discrepancy list, contradicting the claim that hash mismatches
are reported "including the first event of the window". -/
theorem verify_chain_misses_first_event_tamper :
    Ledger.recomputeHash tamperedEvent ≠ tamperedEvent.event_hash ∧
    Ledger.verify_chain_impl 1 [tamperedEvent] =
      { valid := true, events_checked := 1, from_sequence := 1,
        to_sequence := 1, errors := [] } := by
  constructor
  · decide
  · rfl

/-- C1 (code bug).  `check_action_impl` never writes to `movement_events`: the
ledger after any call (successful or not) is exactly the ledger before it, so
no `policy-decision` event is appended; the second conjunct shows a
successful call on concrete data (identity found, evaluation succeeded,
decision row recorded) for which the ledger is left empty. -/
theorem check_action_appends_no_ledger_event :
    (∀ (st : PolicyEngine.PolicyState) (identityId : Nat)
        (evalOutcome : Except GuardRailError PolicyEngine.PolicyEvalResult)
        (decisionId now : Nat),
      ((PolicyEngine.check_action_impl st identityId evalOutcome decisionId now).2).events
        = st.events) ∧
    (PolicyEngine.check_action_impl samplePolicyState 7 (.ok sampleAllowEval) 11 99).1 =
      .ok { decision_id := 11, decision := .allow, reasons := [],
            required_approvers := [], policy_id := 3, policy_version := "1.0.0" } ∧
    ((PolicyEngine.check_action_impl samplePolicyState 7 (.ok sampleAllowEval) 11 99).2).decisions.length = 1 := by
  refine ⟨?_, by rfl, by rfl⟩
  intro st identityId evalOutcome decisionId now
  unfold PolicyEngine.check_action_impl
  cases st.identities.find? (fun i => i.id == identityId && i.is_active) with
  | none => rfl
  | some i =>
    cases evalOutcome with
    | error e => rfl
    | ok res =>
      cases PolicyEngine.newestActivePolicy st.policies with
      | none => rfl
      | some p => rfl

/-- C2 (code bug).  `retry_batch_impl` never writes `movement_events`: the
events table after any retry equals the table before it.  On the concrete
FAILED batch, with both substrates enabled and both publications succeeding,
the retry reports CONFIRMED and stamps `anchored_at` and the substrate
fields, yet every event of the batch's range still has
`anchor_batch_id = NULL` — the association the claim (and the CONFIRMED
invariant) requires never happens. -/
theorem retry_batch_confirms_without_association :
    (∀ (db : ChainAnchor.AnchorDB) (cfg : ChainAnchor.AnchorConfig)
        (env : ChainAnchor.SubstrateEnv) (id now : Nat),
      ((ChainAnchor.retry_batch_impl db cfg env id now).2).events = db.events) ∧
    (ChainAnchor.retry_batch_impl dbFailedBatch cfgBoth envBothOk 5 42).1 =
      .ok { batch_id := 5, merkle_root := "cc", event_count := 2,
            ethereum_tx_hash := some "0xeth", solana_tx_signature := some "solSig",
            status := .confirmed } ∧
    ((ChainAnchor.retry_batch_impl dbFailedBatch cfgBoth envBothOk 5 42).2).batches =
      [{ id := 5, merkle_root := "cc", start_sequence := 1, end_sequence := 2,
         event_count := 2, ethereum_tx_hash := some "0xeth",
         ethereum_block := some 100, solana_tx_signature := some "solSig",
         solana_slot := some 200, status := .confirmed, anchored_at := some 42 }] ∧
    (((ChainAnchor.retry_batch_impl dbFailedBatch cfgBoth envBothOk 5 42).2).events.all
      (fun e => e.anchor_batch_id == none)) = true := by
  refine ⟨?_, by rfl, by rfl, by rfl⟩
  intro db cfg env id now
  unfold ChainAnchor.retry_batch_impl
  cases db.batches.find? (fun b => b.id == id) with
  | none => rfl
  | some batch =>
    by_cases hs : batch.status ≠ ChainAnchor.AnchorStatus.failed
    · simp [hs]
    · simp [hs]

/-- C9 (corrected).  Creating a policy whose rule-set source fails to load
returns the `PolicyEvaluation` error produced by `load_policy` — whose API
code is `POLICY_EVALUATION_FAILED`, not `INVALID_RULESET` — and persists no
policy row (validation precedes the insert). -/
theorem create_policy_invalid_source_error (policies : List PolicyEngine.PolicyRow)
    (name src msg : String) (newId now : Nat) :
    PolicyEngine.create_policy_impl policies name src false msg newId now =
      (.error (.policyEvaluation ("Failed to load policy: " ++ msg)), policies) ∧
    GuardRailError.error_code (.policyEvaluation ("Failed to load policy: " ++ msg)) =
      "POLICY_EVALUATION_FAILED" := by
  exact ⟨rfl, rfl⟩

/-- C9 counterexample.  On a concrete invalid rule-set the creation fails, no
row is persisted, and the error code is `POLICY_EVALUATION_FAILED`, which is
not the claimed `INVALID_RULESET`. -/
theorem invalid_ruleset_code_never_returned :
    (PolicyEngine.create_policy_impl [] "kyc" "not rego" false "rego parse error" 1 0).1 =
      .error (.policyEvaluation "Failed to load policy: rego parse error") ∧
    (PolicyEngine.create_policy_impl [] "kyc" "not rego" false "rego parse error" 1 0).2 = [] ∧
    GuardRailError.error_code
      (.policyEvaluation "Failed to load policy: rego parse error") ≠ "INVALID_RULESET" := by
  refine ⟨rfl, rfl, by decide⟩

/-- A power of two cleared of its bits below: `2^k AND (2^k - 1) = 0`. -/
theorem pow2_land_pred_eq_zero (k : Nat) : 2 ^ k &&& (2 ^ k - 1) = 0 := by
  apply Nat.eq_of_testBit_eq
  intro i
  rw [Nat.testBit_and, Nat.testBit_two_pow, Nat.testBit_two_pow_sub_one,
    Nat.zero_testBit]
  by_cases h : k = i
  · subst h
    simp
  · simp [h]

/-- The `len & (len - 1) == 0` test characterizes the powers of two among the
positive numbers. -/
theorem land_pred_eq_zero_pow2 : ∀ n : Nat, 0 < n → n &&& (n - 1) = 0 →
    ∃ k, n = 2 ^ k := by
  intro n
  induction n using Nat.strong_induction_on with
  | _ n ih =>
    intro hn h
    rcases Nat.lt_or_ge n 2 with h2 | h2
    · have hone : n = 1 := by omega
      exact ⟨0, by simp [hone]⟩
    · have hm1 : 0 < n / 2 := by omega
      rcases Nat.mod_two_eq_zero_or_one n with hpar | hpar
      · -- even case: halve and recurse
        have hneven : n = 2 * (n / 2) := by omega
        have hd1 : n / 2 = n / 2 := rfl
        have hd2 : (n - 1) / 2 = n / 2 - 1 := by omega
        have key : n &&& (n - 1) = 2 * (n / 2 &&& (n / 2 - 1)) := by
          apply Nat.eq_of_testBit_eq
          intro i
          cases i with
          | zero =>
            rw [Nat.testBit_and, Nat.testBit_zero, Nat.testBit_zero,
              Nat.testBit_zero]
            have hnm : ¬(n % 2 = 1) := by omega
            have hzm : ¬(2 * (n / 2 &&& (n / 2 - 1)) % 2 = 1) := by omega
            simp [hnm, hzm]
          | succ i =>
            rw [Nat.testBit_succ, Nat.testBit_succ, Nat.and_div_two, hd2,
              Nat.testBit_and]
            have hq : 2 * (n / 2 &&& (n / 2 - 1)) / 2 = n / 2 &&& (n / 2 - 1) := by
              omega
            rw [hq, Nat.testBit_and]
        rw [key] at h
        have hz : n / 2 &&& (n / 2 - 1) = 0 := by omega
        obtain ⟨k, hk⟩ := ih (n / 2) (by omega) hm1 hz
        refine ⟨k + 1, ?_⟩
        rw [hneven, hk, Nat.pow_succ]
        ring
      · -- odd case: the test cannot hold for odd n of at least 3
        exfalso
        have hd1 : n / 2 ≠ 0 := by omega
        obtain ⟨j, hj⟩ := Nat.ne_zero_implies_bit_true hd1
        have hd2 : (n - 1) / 2 = n / 2 := by omega
        have hbit : (n &&& (n - 1)).testBit (j + 1) = true := by
          rw [Nat.testBit_succ, Nat.and_div_two, hd2, Nat.testBit_and, hj]
          simp
        rw [h, Nat.zero_testBit] at hbit
        cases hbit

/-- The padding loop computes the closed-form padding whenever the fuel is at
least the number of pushes the loop makes. -/
theorem padAux_eq_padSpec : ∀ (fuel : Nat) (l : List String), l ≠ [] →
    2 ^ Nat.clog 2 l.length - l.length ≤ fuel →
    Ledger.padAux fuel l = Ledger.padSpec l := by
  intro fuel
  induction fuel with
  | zero =>
    intro l hne hc
    have h0 : 2 ^ Nat.clog 2 l.length - l.length = 0 := Nat.le_zero.mp hc
    simp [Ledger.padAux, Ledger.padSpec, h0]
  | succ fuel ih =>
    intro l hne hc
    have hlen : 0 < l.length := List.length_pos.mpr hne
    by_cases hg : l.length &&& (l.length - 1) = 0
    · obtain ⟨k, hk⟩ := land_pred_eq_zero_pow2 l.length hlen hg
      have hclog : Nat.clog 2 l.length = k := by
        rw [hk]
        exact Nat.clog_pow 2 k (by omega)
      have h0 : 2 ^ Nat.clog 2 l.length - l.length = 0 := by
        rw [hclog, hk]
        exact Nat.sub_self _
      simp [Ledger.padAux, hg, Ledger.padSpec, h0]
    · have hle : l.length ≤ 2 ^ Nat.clog 2 l.length :=
        Nat.le_pow_clog (by omega) _
      have hnotpow : l.length ≠ 2 ^ Nat.clog 2 l.length := by
        intro hcontra
        exact hg (by rw [hcontra]; exact pow2_land_pred_eq_zero _)
      have hlt : l.length < 2 ^ Nat.clog 2 l.length :=
        lt_of_le_of_ne hle hnotpow
      have hclog' : Nat.clog 2 (l.length + 1) = Nat.clog 2 l.length := by
        refine le_antisymm ?_ (Nat.clog_mono_right 2 (Nat.le_succ _))
        exact (Nat.le_pow_iff_clog_le (by omega)).mp hlt
      have hlen' : (l ++ [l.getLastD ""]).length = l.length + 1 := by simp
      have hstep : Ledger.padAux (fuel + 1) l =
          Ledger.padAux fuel (l ++ [l.getLastD ""]) := by
        simp [Ledger.padAux, hg]
      rw [hstep, ih (l ++ [l.getLastD ""]) (by simp) ?hfuel]
      case hfuel =>
        rw [hlen', hclog']
        omega
      rw [Ledger.padSpec, Ledger.padSpec, hlen', hclog',
        List.getLastD_concat]
      have hc1 : 2 ^ Nat.clog 2 l.length - l.length =
          (2 ^ Nat.clog 2 l.length - (l.length + 1)) + 1 := by omega
      rw [hc1, List.replicate_succ, List.append_assoc, List.singleton_append]

/-- For at least two leaves, the fuel `l.length` suffices for the padding
loop, so `padPow2` equals the closed-form padding. -/
theorem padPow2_eq_padSpec (l : List String) (h2 : 2 ≤ l.length) :
    Ledger.padPow2 l = Ledger.padSpec l := by
  refine padAux_eq_padSpec l.length l (by intro h; simp [h] at h2) ?_
  have hc1 : 0 < Nat.clog 2 l.length := Nat.clog_pos (by omega) h2
  have hlt : 2 ^ (Nat.clog 2 l.length - 1) < l.length :=
    Nat.pow_pred_clog_lt_self (by omega) (by omega)
  have hpow : 2 ^ Nat.clog 2 l.length = 2 * 2 ^ (Nat.clog 2 l.length - 1) := by
    conv_lhs => rw [show Nat.clog 2 l.length = (Nat.clog 2 l.length - 1) + 1 by omega]
    rw [Nat.pow_succ]
    ring
  omega

/-- Length of the closed-form padding: the next power of two. -/
theorem padSpec_length (l : List String) :
    (Ledger.padSpec l).length = 2 ^ Nat.clog 2 l.length := by
  have := Nat.le_pow_clog (b := 2) (by omega) l.length
  simp [Ledger.padSpec]
  omega

/-- The padding only appends: positions inside the original list are kept. -/
theorem padSpec_getD (l : List String) (i : Nat) (hi : i < l.length) :
    (Ledger.padSpec l).getD i "" = l.getD i "" := by
  rw [Ledger.padSpec, List.getD_append _ _ _ _ hi]

/-- Length of one pair-hash pass. -/
theorem pairHashLevel_length (l : List String) :
    (Ledger.pairHashLevel l).length = (l.length + 1) / 2 := by
  match l with
  | [] => rfl
  | [a] => simp [Ledger.pairHashLevel]
  | a :: b :: rest =>
    have ih := pairHashLevel_length rest
    simp only [Ledger.pairHashLevel, List.length_cons, ih]
    omega

/-- Entries of one pair-hash pass. -/
theorem pairHashLevel_getD (l : List String) (j : Nat)
    (hj : 2 * j + 1 < l.length) :
    (Ledger.pairHashLevel l).getD j "" =
      Ledger.combine (l.getD (2 * j) "") (l.getD (2 * j + 1) "") := by
  match l, j with
  | [], j => simp at hj
  | [a], j => simp at hj
  | a :: b :: rest, 0 => simp [Ledger.pairHashLevel]
  | a :: b :: rest, j + 1 =>
    have hj' : 2 * j + 1 < rest.length := by
      simp only [List.length_cons] at hj
      omega
    have ih := pairHashLevel_getD rest j hj'
    have h1 : 2 * (j + 1) = 2 * j + 1 + 1 := by ring
    have h2 : 2 * (j + 1) + 1 = 2 * j + 1 + 1 + 1 := by ring
    simp only [Ledger.pairHashLevel, h1, h2, List.getD_cons_succ, ih]

/-- Round trip through the padded tree: starting from the leaf at `i` of a
level whose size is `2^k`, replaying the recorded siblings reproduces the
value the build loop computes for that level. -/
theorem merkle_roundtrip_aux : ∀ (k : Nat) (l : List String) (i fb fg : Nat),
    l.length = 2 ^ k → i < l.length → k ≤ fb → k ≤ fg →
    Ledger.verifyFold (l.getD i "") (Ledger.genAux fg l i) =
      (Ledger.buildAux fb l).headD "" := by
  intro k
  induction k with
  | zero =>
    intro l i fb fg hlen hi hfb hfg
    obtain ⟨a, rfl⟩ := List.length_eq_one.mp (by simpa using hlen)
    have hi0 : i = 0 := by simpa using hi
    subst hi0
    have hg : Ledger.genAux fg [a] 0 = [] := by
      cases fg <;> simp [Ledger.genAux]
    have hb : Ledger.buildAux fb [a] = [a] := by
      cases fb <;> simp [Ledger.buildAux]
    simp [hg, hb, Ledger.verifyFold]
  | succ k ih =>
    intro l i fb fg hlen hi hfb hfg
    have hlen2 : 1 < l.length := by
      rw [hlen]
      exact Nat.one_lt_two_pow (by omega)
    obtain ⟨fb', rfl⟩ : ∃ fb', fb = fb' + 1 := ⟨fb - 1, by omega⟩
    obtain ⟨fg', rfl⟩ : ∃ fg', fg = fg' + 1 := ⟨fg - 1, by omega⟩
    have hleneven : l.length % 2 = 0 := by
      rw [hlen, Nat.pow_succ]
      simp [Nat.mul_mod_left]
    have hnextlen : (Ledger.pairHashLevel l).length = 2 ^ k := by
      rw [pairHashLevel_length, hlen, Nat.pow_succ]
      omega
    have hnexti : i / 2 < (Ledger.pairHashLevel l).length := by
      rw [hnextlen]
      rw [hlen, Nat.pow_succ] at hi
      omega
    have hbuild : Ledger.buildAux (fb' + 1) l =
        Ledger.buildAux fb' (Ledger.pairHashLevel l) := by
      simp [Ledger.buildAux, hlen2]
    rcases Nat.mod_two_eq_zero_or_one i with hp | hp
    · -- even leaf index: sibling on the right
      have hsib : i + 1 < l.length := by omega
      have hgen : Ledger.genAux (fg' + 1) l i =
          Ledger.ProofSibling.mk (l.getD (i + 1) "") "right" ::
            Ledger.genAux fg' (Ledger.pairHashLevel l) (i / 2) := by
        simp [Ledger.genAux, hlen2, hp, hsib]
      have hstepval : Ledger.verifyFold (l.getD i "")
          (Ledger.ProofSibling.mk (l.getD (i + 1) "") "right" ::
            Ledger.genAux fg' (Ledger.pairHashLevel l) (i / 2)) =
          Ledger.verifyFold (Ledger.combine (l.getD i "") (l.getD (i + 1) ""))
            (Ledger.genAux fg' (Ledger.pairHashLevel l) (i / 2)) := by
        simp [Ledger.verifyFold]
      have hpair : (Ledger.pairHashLevel l).getD (i / 2) "" =
          Ledger.combine (l.getD i "") (l.getD (i + 1) "") := by
        have h2i : 2 * (i / 2) = i := by omega
        have := pairHashLevel_getD l (i / 2) (by omega)
        rw [h2i] at this
        exact this
      rw [hgen, hstepval, hbuild, ← hpair]
      exact ih (Ledger.pairHashLevel l) (i / 2) fb' fg' hnextlen hnexti
        (by omega) (by omega)
    · -- odd leaf index: sibling on the left
      have hsib : i - 1 < l.length := by omega
      have hgen : Ledger.genAux (fg' + 1) l i =
          Ledger.ProofSibling.mk (l.getD (i - 1) "") "left" ::
            Ledger.genAux fg' (Ledger.pairHashLevel l) (i / 2) := by
        simp [Ledger.genAux, hlen2, hp, hsib]
      have hstepval : Ledger.verifyFold (l.getD i "")
          (Ledger.ProofSibling.mk (l.getD (i - 1) "") "left" ::
            Ledger.genAux fg' (Ledger.pairHashLevel l) (i / 2)) =
          Ledger.verifyFold (Ledger.combine (l.getD (i - 1) "") (l.getD i ""))
            (Ledger.genAux fg' (Ledger.pairHashLevel l) (i / 2)) := by
        simp [Ledger.verifyFold]
      have hpair : (Ledger.pairHashLevel l).getD (i / 2) "" =
          Ledger.combine (l.getD (i - 1) "") (l.getD i "") := by
        have h2i : 2 * (i / 2) = i - 1 := by omega
        have h2i1 : 2 * (i / 2) + 1 = i := by omega
        have := pairHashLevel_getD l (i / 2) (by omega)
        rw [h2i1, h2i] at this
        exact this
      rw [hgen, hstepval, hbuild, ← hpair]
      exact ih (Ledger.pairHashLevel l) (i / 2) fb' fg' hnextlen hnexti
        (by omega) (by omega)

/-- C6 (confirmed).  The ledger's `build_merkle_root` follows the spec's
Merkle-root definition: the empty list gives 64 zero hex characters, a
single leaf is returned unchanged, otherwise the leaf level is padded (by
duplicating the last element) to the next power of two and then repeatedly
pair-hashed with `SHA256(ASCII(left) || ASCII(right))`; for four leaves the
root is the combine of the two pair combines. -/
theorem build_merkle_root_follows_spec :
    Ledger.build_merkle_root [] = zeros64 ∧
    (∀ h : String, Ledger.build_merkle_root [h] = h) ∧
    (∀ l : List String, 2 ≤ l.length →
      Ledger.build_merkle_root l = Ledger.merkleRootSpec l) ∧
    (∀ h0 h1 h2 h3 : String,
      Ledger.build_merkle_root [h0, h1, h2, h3] =
        Ledger.combine (Ledger.combine h0 h1) (Ledger.combine h2 h3)) := by
  refine ⟨rfl, ?_, ?_, ?_⟩
  · intro h
    simp [Ledger.build_merkle_root]
  · intro l h2
    have hne : l ≠ [] := by intro h; simp [h] at h2
    have hne1 : l.length ≠ 1 := by omega
    rw [Ledger.build_merkle_root, Ledger.merkleRootSpec, if_neg hne, if_neg hne,
      if_neg hne1, if_neg hne1, padPow2_eq_padSpec l h2]
  · intro h0 h1 h2 h3
    have h43 : (4 &&& 3 : Nat) = 0 := by decide
    simp [Ledger.build_merkle_root, Ledger.padPow2, Ledger.padAux,
      Ledger.buildAux, Ledger.pairHashLevel, h43]

/-- Witness for C6 on a concrete three-leaf list (the odd-leaves case). -/
theorem build_merkle_root_follows_spec_witness :
    2 ≤ (["aa", "bb", "cc"] : List String).length ∧
    Ledger.build_merkle_root ["aa", "bb", "cc"] =
      Ledger.merkleRootSpec ["aa", "bb", "cc"] :=
  ⟨by decide, (build_merkle_root_follows_spec).2.2.1 ["aa", "bb", "cc"] (by decide)⟩

/-- C7 (confirmed).  Merkle proof round trip: for every non-empty list of
leaf hashes and every index inside it, verifying the proof generated by
`generate_merkle_proof` against `build_merkle_root` succeeds; a single-leaf
list yields an empty proof and the root equals the leaf. -/
theorem merkle_proof_roundtrip :
    (∀ (hashes : List String) (i : Nat), hashes ≠ [] → i < hashes.length →
      Ledger.verify_merkle_proof (hashes.getD i "")
        (Ledger.generate_merkle_proof hashes i)
        (Ledger.build_merkle_root hashes) = true) ∧
    (∀ h : String, Ledger.generate_merkle_proof [h] 0 = [] ∧
      Ledger.build_merkle_root [h] = h) := by
  constructor
  · intro hashes i hne hi
    by_cases h1 : hashes.length ≤ 1
    · have hlen1 : hashes.length = 1 := by
        have := List.length_pos.mpr hne
        omega
      obtain ⟨a, rfl⟩ := List.length_eq_one.mp hlen1
      have hi0 : i = 0 := by simpa using hi
      subst hi0
      simp [Ledger.generate_merkle_proof, Ledger.verify_merkle_proof,
        Ledger.verifyFold, Ledger.build_merkle_root]
    · have h2 : 2 ≤ hashes.length := by omega
      have hspec := padPow2_eq_padSpec hashes h2
      have hPlen : (Ledger.padPow2 hashes).length =
          2 ^ Nat.clog 2 hashes.length := by
        rw [hspec]
        exact padSpec_length hashes
      have hkfuel : Nat.clog 2 hashes.length ≤ (Ledger.padPow2 hashes).length := by
        rw [hPlen]
        exact Nat.le_of_lt (Nat.lt_two_pow _)
      have hiP : i < (Ledger.padPow2 hashes).length := by
        rw [hPlen]
        exact lt_of_lt_of_le hi (Nat.le_pow_clog (by omega) _)
      have hgetD : (Ledger.padPow2 hashes).getD i "" = hashes.getD i "" := by
        rw [hspec]
        exact padSpec_getD hashes i hi
      have hne1 : hashes.length ≠ 1 := by omega
      have hnotle : ¬hashes.length ≤ 1 := by omega
      rw [Ledger.verify_merkle_proof, Ledger.generate_merkle_proof,
        Ledger.build_merkle_root, if_neg hne, if_neg hne1, if_neg hnotle,
        ← hgetD,
        merkle_roundtrip_aux (Nat.clog 2 hashes.length) (Ledger.padPow2 hashes)
          i (Ledger.padPow2 hashes).length (Ledger.padPow2 hashes).length
          hPlen hiP hkfuel hkfuel]
      exact beq_self_eq_true _
  · intro h
    exact ⟨rfl, by simp [Ledger.build_merkle_root]⟩

/-- Witness for C7 on a concrete two-leaf list at index 0. -/
theorem merkle_proof_roundtrip_witness :
    (["aa", "bb"] : List String) ≠ [] ∧
    0 < (["aa", "bb"] : List String).length ∧
    Ledger.verify_merkle_proof ((["aa", "bb"] : List String).getD 0 "")
      (Ledger.generate_merkle_proof ["aa", "bb"] 0)
      (Ledger.build_merkle_root ["aa", "bb"]) = true :=
  ⟨by decide, by decide,
   (merkle_proof_roundtrip).1 ["aa", "bb"] 0 (by decide) (by decide)⟩

/-- When the publication section reports failure, and when it does not. -/
theorem anchorPublish_failed_char (cfg : ChainAnchor.AnchorConfig)
    (env : ChainAnchor.SubstrateEnv) :
    (ChainAnchor.anchorPublish cfg env).failed = true ↔
      ((cfg.ethereum_enabled = true ∧ env.ethPresent = true ∧ env.ethOutcome = none) ∨
       (cfg.solana_enabled = true ∧ env.solPresent = true ∧ env.solOutcome = none ∧
        ¬(cfg.ethereum_enabled = true ∧ env.ethPresent = true ∧
          env.ethOutcome = none))) := by
  obtain ⟨bs, ee, se⟩ := cfg
  obtain ⟨ep, sp, eo, so⟩ := env
  cases ee <;> cases se <;> cases ep <;> cases sp <;> cases eo <;> cases so <;>
    simp [ChainAnchor.anchorPublish]

/-- C4 (corrected).  In `create_and_anchor_batch`: whenever the publication
section fails (a publication attempt on an enabled substrate whose adapter
was initialized fails — Solana is attempted only if Ethereum did not already
fail), the batch is FAILED and no event is associated; the batch is CONFIRMED
iff the publication section did not fail; and on CONFIRMED every enabled
substrate whose adapter was initialized actually published.  An enabled
substrate whose adapter is missing is skipped without failing the batch. -/
theorem anchor_all_or_nothing (db : ChainAnchor.AnchorDB)
    (cfg : ChainAnchor.AnchorConfig) (env : ChainAnchor.SubstrateEnv)
    (batchId now : Nat) (r : ChainAnchor.AnchorResult) (db' : ChainAnchor.AnchorDB)
    (h : ChainAnchor.create_and_anchor_batch db cfg env batchId now = (some r, db')) :
    ((ChainAnchor.anchorPublish cfg env).failed = true →
      r.status = .failed ∧ db'.events = db.events) ∧
    ((ChainAnchor.anchorPublish cfg env).failed = true ↔
      ((cfg.ethereum_enabled = true ∧ env.ethPresent = true ∧ env.ethOutcome = none) ∨
       (cfg.solana_enabled = true ∧ env.solPresent = true ∧ env.solOutcome = none ∧
        ¬(cfg.ethereum_enabled = true ∧ env.ethPresent = true ∧
          env.ethOutcome = none)))) ∧
    (r.status = .confirmed ↔ (ChainAnchor.anchorPublish cfg env).failed = false) ∧
    (r.status = .confirmed →
      (cfg.ethereum_enabled = true → env.ethPresent = true → env.ethOutcome ≠ none) ∧
      (cfg.solana_enabled = true → env.solPresent = true → env.solOutcome ≠ none)) := by
  unfold ChainAnchor.create_and_anchor_batch at h
  by_cases hsel : (ChainAnchor.selectUnanchored db.events cfg.batch_size).isEmpty = true
  · simp [hsel] at h
  · simp only [hsel, if_false, Bool.false_eq_true] at h
    obtain ⟨hr, hdb⟩ := Prod.mk.injEq _ _ _ _ ▸ h
    have hrr := Option.some.inj hr
    refine ⟨?_, anchorPublish_failed_char cfg env, ?_, ?_⟩
    · intro hf
      constructor
      · rw [← hrr]
        simp [hf]
      · rw [← hdb]
        simp [hf]
    · rw [← hrr]
      cases hfl : (ChainAnchor.anchorPublish cfg env).failed <;> simp [hfl]
    · intro hconf
      have hfl : (ChainAnchor.anchorPublish cfg env).failed = false := by
        rw [← hrr] at hconf
        cases hfl : (ChainAnchor.anchorPublish cfg env).failed
        · rfl
        · simp [hfl] at hconf
      constructor
      · intro hee hep
        intro heo
        have : (ChainAnchor.anchorPublish cfg env).failed = true := by
          rw [anchorPublish_failed_char]
          exact Or.inl ⟨hee, hep, heo⟩
        rw [this] at hfl
        cases hfl
      · intro hse hsp
        intro hso
        by_cases heth : cfg.ethereum_enabled = true ∧ env.ethPresent = true ∧
            env.ethOutcome = none
        · have : (ChainAnchor.anchorPublish cfg env).failed = true := by
            rw [anchorPublish_failed_char]
            exact Or.inl heth
          rw [this] at hfl
          cases hfl
        · have : (ChainAnchor.anchorPublish cfg env).failed = true := by
            rw [anchorPublish_failed_char]
            exact Or.inr ⟨hse, hsp, hso, heth⟩
          rw [this] at hfl
          cases hfl

/-- Witness for C4: one unanchored event, Ethereum enabled with an
initialized adapter whose publication fails — the batch is FAILED and the
event stays unassociated. -/
theorem anchor_all_or_nothing_witness :
    ChainAnchor.create_and_anchor_batch dbOneEvent cfgEthOnly envEthFails 9 42 =
      (some wAnchorResult, wAnchorDB) ∧
    (ChainAnchor.anchorPublish cfgEthOnly envEthFails).failed = true ∧
    wAnchorResult.status = .failed ∧ wAnchorDB.events = dbOneEvent.events := by
  refine ⟨by rfl, by rfl, ?_⟩
  exact (anchor_all_or_nothing dbOneEvent cfgEthOnly envEthFails 9 42
    wAnchorResult wAnchorDB (by rfl)).1 (by rfl)

/-- C4 counterexample.  With Ethereum enabled but its adapter not initialized
(enabled-but-misconfigured), no publication happens at all, yet the batch is
CONFIRMED and the event is associated with it: a batch can be CONFIRMED
without a publication succeeding on an enabled substrate. -/
theorem anchor_confirmed_with_substrate_skipped :
    cfgEthOnly.ethereum_enabled = true ∧
    (ChainAnchor.create_and_anchor_batch dbOneEvent cfgEthOnly envAbsent 9 42).1 =
      some { batch_id := 9, merkle_root := "aa", event_count := 1,
             ethereum_tx_hash := none, solana_tx_signature := none,
             status := .confirmed } ∧
    ((ChainAnchor.create_and_anchor_batch dbOneEvent cfgEthOnly envAbsent 9 42).2).events.all
      (fun e => e.anchor_batch_id == some 9) = true := by
  exact ⟨rfl, rfl, rfl⟩

/-- Membership in the running reasons survives `pushNew`. -/
theorem pushNew_mem (ss : List String) :
    ∀ (acc : List String) (a : String), a ∈ acc → a ∈ PolicyEngine.pushNew acc ss := by
  induction ss with
  | nil => intro acc a ha; exact ha
  | cons s ss ih =>
    intro acc a ha
    simp only [PolicyEngine.pushNew, List.foldl_cons] at ih ⊢
    by_cases hc : acc.contains s = true
    · simp only [hc, if_true]
      exact ih acc a ha
    · simp only [hc, if_false]
      exact ih (acc ++ [s]) a (List.mem_append_left _ ha)

/-- A value that does not signal contributes no strings. -/
theorem valueStrs_eq_nil {v : Option PolicyEngine.RegoValue}
    (h : PolicyEngine.valueSignal v = false) : PolicyEngine.valueStrs v = [] := by
  rcases v with _ | (items | s | b | _)
  · rfl
  · have : items.isEmpty = true := by
      simpa [PolicyEngine.valueSignal] using h
    simp [PolicyEngine.valueStrs, List.isEmpty_iff.mp this, PolicyEngine.strItems]
  · rfl
  · rfl
  · rfl

/-- Decision after the `deny` block. -/
theorem stepDeny_fst (st : PolicyEngine.Decision × List String × List String)
    (dny : Option PolicyEngine.RegoValue) :
    (PolicyEngine.stepDeny st dny).1 =
      if PolicyEngine.valueSignal dny then .deny else st.1 := by
  rcases dny with _ | (items | s | b | _)
  · rfl
  · by_cases hi : items.isEmpty <;>
      simp [PolicyEngine.stepDeny, PolicyEngine.valueSignal, hi]
  · rfl
  · cases b <;> rfl
  · rfl

/-- Reasons after the `deny` block. -/
theorem stepDeny_reasons (st : PolicyEngine.Decision × List String × List String)
    (dny : Option PolicyEngine.RegoValue) :
    (PolicyEngine.stepDeny st dny).2.1 = st.2.1 ++ PolicyEngine.valueStrs dny := by
  rcases dny with _ | (items | s | b | _)
  · simp [PolicyEngine.stepDeny, PolicyEngine.valueStrs]
  · by_cases hi : items.isEmpty <;>
      simp_all [PolicyEngine.stepDeny, PolicyEngine.valueStrs,
        List.isEmpty_iff, PolicyEngine.strItems]
  · simp [PolicyEngine.stepDeny, PolicyEngine.valueStrs]
  · cases b <;> simp [PolicyEngine.stepDeny, PolicyEngine.valueStrs]
  · simp [PolicyEngine.stepDeny, PolicyEngine.valueStrs]

/-- Approvers are untouched by the `deny` block. -/
theorem stepDeny_approvers (st : PolicyEngine.Decision × List String × List String)
    (dny : Option PolicyEngine.RegoValue) :
    (PolicyEngine.stepDeny st dny).2.2 = st.2.2 := by
  rcases dny with _ | (items | s | b | _)
  · rfl
  · by_cases hi : items.isEmpty <;> simp [PolicyEngine.stepDeny, hi]
  · rfl
  · cases b <;> rfl
  · rfl

/-- Decision after the `require_approval` block. -/
theorem stepRA_fst (st : PolicyEngine.Decision × List String × List String)
    (ra : Option PolicyEngine.RegoValue) :
    (PolicyEngine.stepRA st ra).1 =
      if PolicyEngine.valueSignal ra = true ∧ st.1 ≠ .deny then .requireApproval
      else st.1 := by
  rcases ra with _ | (items | s | b | _)
  · simp [PolicyEngine.stepRA, PolicyEngine.valueSignal]
  · by_cases hi : items.isEmpty <;> by_cases hd : st.1 = PolicyEngine.Decision.deny <;>
      simp [PolicyEngine.stepRA, PolicyEngine.valueSignal, hi, hd]
  · simp [PolicyEngine.stepRA, PolicyEngine.valueSignal]
  · cases b <;> by_cases hd : st.1 = PolicyEngine.Decision.deny <;>
      simp [PolicyEngine.stepRA, PolicyEngine.valueSignal, hd]
  · simp [PolicyEngine.stepRA, PolicyEngine.valueSignal]

/-- Reasons are untouched by the `require_approval` block. -/
theorem stepRA_reasons (st : PolicyEngine.Decision × List String × List String)
    (ra : Option PolicyEngine.RegoValue) :
    (PolicyEngine.stepRA st ra).2.1 = st.2.1 := by
  rcases ra with _ | (items | s | b | _)
  · rfl
  · by_cases hi : items.isEmpty <;> by_cases hd : st.1 = PolicyEngine.Decision.deny <;>
      simp [PolicyEngine.stepRA, hi, hd]
  · rfl
  · cases b <;> by_cases hd : st.1 = PolicyEngine.Decision.deny <;>
      simp [PolicyEngine.stepRA, hd]
  · rfl

/-- Approvers after the `require_approval` block. -/
theorem stepRA_approvers (st : PolicyEngine.Decision × List String × List String)
    (ra : Option PolicyEngine.RegoValue) :
    (PolicyEngine.stepRA st ra).2.2 =
      st.2.2 ++ (if PolicyEngine.valueSignal ra = true ∧ st.1 ≠ .deny then
        PolicyEngine.valueStrs ra else []) := by
  rcases ra with _ | (items | s | b | _)
  · simp [PolicyEngine.stepRA, PolicyEngine.valueSignal, PolicyEngine.valueStrs]
  · by_cases hi : items.isEmpty <;> by_cases hd : st.1 = PolicyEngine.Decision.deny <;>
      simp_all [PolicyEngine.stepRA, PolicyEngine.valueSignal, PolicyEngine.valueStrs,
        List.isEmpty_iff, PolicyEngine.strItems]
  · simp [PolicyEngine.stepRA, PolicyEngine.valueSignal, PolicyEngine.valueStrs]
  · cases b <;> by_cases hd : st.1 = PolicyEngine.Decision.deny <;>
      simp [PolicyEngine.stepRA, PolicyEngine.valueSignal, PolicyEngine.valueStrs, hd]
  · simp [PolicyEngine.stepRA, PolicyEngine.valueSignal, PolicyEngine.valueStrs]

/-- Decision and approvers are untouched by the `reasons` block; reasons get
the pushed strings. -/
theorem stepReasons_parts (st : PolicyEngine.Decision × List String × List String)
    (rsn : Option PolicyEngine.RegoValue) :
    (PolicyEngine.stepReasons st rsn).1 = st.1 ∧
    (PolicyEngine.stepReasons st rsn).2.1 =
      PolicyEngine.pushNew st.2.1 (PolicyEngine.valueStrs rsn) ∧
    (PolicyEngine.stepReasons st rsn).2.2 = st.2.2 := by
  rcases rsn with _ | (items | s | b | _) <;>
    simp [PolicyEngine.stepReasons, PolicyEngine.valueStrs, PolicyEngine.pushNew]

/-- Decision after one loop iteration. -/
theorem parseStep_fst (st : PolicyEngine.Decision × List String × List String)
    (r : Option PolicyEngine.QueryBinding) :
    (PolicyEngine.parseStep st r).1 =
      if st.1 = .deny ∨ PolicyEngine.denySignal r = true then .deny
      else if st.1 = .requireApproval ∨ PolicyEngine.raSignal r = true then .requireApproval
      else st.1 := by
  cases r with
  | none =>
    cases h : st.1 <;> simp [PolicyEngine.parseStep, PolicyEngine.denySignal,
      PolicyEngine.raSignal, h]
  | some obj =>
    simp only [PolicyEngine.parseStep, (stepReasons_parts _ _).1, stepRA_fst,
      stepDeny_fst, PolicyEngine.denySignal, PolicyEngine.raSignal]
    by_cases h1 : PolicyEngine.valueSignal obj.deny = true <;>
      by_cases h2 : PolicyEngine.valueSignal obj.require_approval = true <;>
      cases h : st.1 <;> simp [h1, h2, h]

/-- Reasons after one loop iteration. -/
theorem parseStep_reasons (st : PolicyEngine.Decision × List String × List String)
    (r : Option PolicyEngine.QueryBinding) :
    (PolicyEngine.parseStep st r).2.1 =
      PolicyEngine.pushNew (st.2.1 ++ PolicyEngine.denyStrs1 r)
        (PolicyEngine.reasonStrs1 r) := by
  cases r with
  | none =>
    simp [PolicyEngine.parseStep, PolicyEngine.denyStrs1, PolicyEngine.reasonStrs1,
      PolicyEngine.pushNew]
  | some obj =>
    simp only [PolicyEngine.parseStep, (stepReasons_parts _ _).2.1, stepRA_reasons,
      stepDeny_reasons, PolicyEngine.denyStrs1, PolicyEngine.reasonStrs1]

/-- Approvers after one loop iteration. -/
theorem parseStep_approvers (st : PolicyEngine.Decision × List String × List String)
    (r : Option PolicyEngine.QueryBinding) :
    (PolicyEngine.parseStep st r).2.2 =
      st.2.2 ++ (if st.1 = .deny ∨ PolicyEngine.denySignal r = true then []
        else PolicyEngine.raStrs1 r) := by
  cases r with
  | none =>
    cases h : st.1 <;> simp [PolicyEngine.parseStep, PolicyEngine.denySignal,
      PolicyEngine.raStrs1, h]
  | some obj =>
    simp only [PolicyEngine.parseStep, (stepReasons_parts _ _).2.2, stepRA_approvers,
      stepDeny_approvers, stepDeny_fst, PolicyEngine.denySignal, PolicyEngine.raStrs1]
    by_cases h1 : PolicyEngine.valueSignal obj.deny = true <;>
      by_cases h2 : PolicyEngine.valueSignal obj.require_approval = true <;>
      cases h : st.1 <;> simp [h1, h2, h] <;>
      exact valueStrs_eq_nil (by simpa using h2)

/-- Decision after the whole loop. -/
theorem parseLoop_fst (results : List (Option PolicyEngine.QueryBinding)) :
    ∀ st : PolicyEngine.Decision × List String × List String,
    (PolicyEngine.parseLoop st results).1 =
      if st.1 = .deny ∨ results.any PolicyEngine.denySignal = true then .deny
      else if st.1 = .requireApproval ∨ results.any PolicyEngine.raSignal = true then
        .requireApproval
      else st.1 := by
  induction results with
  | nil => intro st; cases h : st.1 <;> simp [PolicyEngine.parseLoop, h]
  | cons r rest ih =>
    intro st
    simp only [PolicyEngine.parseLoop, ih (PolicyEngine.parseStep st r),
      parseStep_fst, List.any_cons]
    by_cases h1 : PolicyEngine.denySignal r = true <;>
      by_cases h2 : rest.any PolicyEngine.denySignal = true <;>
      by_cases h3 : PolicyEngine.raSignal r = true <;>
      by_cases h4 : rest.any PolicyEngine.raSignal = true <;>
      cases h : st.1 <;>
      simp [h1, h2, h3, h4, h]

/-- Membership in the running reasons survives the rest of the loop. -/
theorem parseLoop_reasons_mono (results : List (Option PolicyEngine.QueryBinding)) :
    ∀ (st : PolicyEngine.Decision × List String × List String) (a : String),
    a ∈ st.2.1 → a ∈ (PolicyEngine.parseLoop st results).2.1 := by
  induction results with
  | nil => intro st a ha; exact ha
  | cons r rest ih =>
    intro st a ha
    refine ih (PolicyEngine.parseStep st r) a ?_
    rw [parseStep_reasons]
    exact pushNew_mem _ _ a (List.mem_append_left _ ha)

/-- Every deny string of the result list ends up in the reasons. -/
theorem parseLoop_reasons_complete (results : List (Option PolicyEngine.QueryBinding)) :
    ∀ (st : PolicyEngine.Decision × List String × List String) (a : String),
    a ∈ PolicyEngine.denyStrs results → a ∈ (PolicyEngine.parseLoop st results).2.1 := by
  induction results with
  | nil => intro st a ha; simp [PolicyEngine.denyStrs] at ha
  | cons r rest ih =>
    intro st a ha
    simp only [PolicyEngine.denyStrs, List.map_cons, List.flatten_cons,
      List.mem_append] at ha
    rcases ha with ha | ha
    · refine parseLoop_reasons_mono rest (PolicyEngine.parseStep st r) a ?_
      rw [parseStep_reasons]
      exact pushNew_mem _ _ a (List.mem_append_right _ ha)
    · exact ih (PolicyEngine.parseStep st r) a ha

/-- Membership in the running approvers survives the rest of the loop. -/
theorem parseLoop_approvers_mono (results : List (Option PolicyEngine.QueryBinding)) :
    ∀ (st : PolicyEngine.Decision × List String × List String) (a : String),
    a ∈ st.2.2 → a ∈ (PolicyEngine.parseLoop st results).2.2 := by
  induction results with
  | nil => intro st a ha; exact ha
  | cons r rest ih =>
    intro st a ha
    refine ih (PolicyEngine.parseStep st r) a ?_
    rw [parseStep_approvers]
    exact List.mem_append_left _ ha

/-- When the loop does not end in DENY, every approver string of the result
list ends up in the required approvers. -/
theorem parseLoop_approvers_complete (results : List (Option PolicyEngine.QueryBinding)) :
    ∀ (st : PolicyEngine.Decision × List String × List String) (a : String),
    (PolicyEngine.parseLoop st results).1 ≠ .deny →
    a ∈ PolicyEngine.raStrs results → a ∈ (PolicyEngine.parseLoop st results).2.2 := by
  induction results with
  | nil => intro st a _ ha; simp [PolicyEngine.raStrs] at ha
  | cons r rest ih =>
    intro st a hfin ha
    have hchar := parseLoop_fst (r :: rest) st
    have hnd : ¬(st.1 = .deny ∨ (r :: rest).any PolicyEngine.denySignal = true) := by
      intro hcontra
      exact hfin (by rw [hchar, if_pos hcontra])
    push_neg at hnd
    have hsplit : PolicyEngine.denySignal r = false ∧
        rest.any PolicyEngine.denySignal = false := by
      simpa [List.any_cons] using hnd.2
    simp only [PolicyEngine.raStrs, List.map_cons, List.flatten_cons,
      List.mem_append] at ha
    simp only [PolicyEngine.parseLoop] at hfin ⊢
    rcases ha with ha | ha
    · refine parseLoop_approvers_mono rest (PolicyEngine.parseStep st r) a ?_
      rw [parseStep_approvers]
      refine List.mem_append_right _ ?_
      rw [if_neg (by simp [hsplit.1, hnd.1])]
      exact ha
    · exact ih (PolicyEngine.parseStep st r) a hfin ha

/-- Unfolding of `parse_decision` into the loop components. -/
theorem parse_decision_eq (results : List (Option PolicyEngine.QueryBinding)) :
    PolicyEngine.parse_decision results =
      { decision := (PolicyEngine.parseLoop (.allow, [], []) results).1,
        reasons := (PolicyEngine.parseLoop (.allow, [], []) results).2.1,
        required_approvers := (PolicyEngine.parseLoop (.allow, [], []) results).2.2 } := by
  unfold PolicyEngine.parse_decision
  rcases hE : PolicyEngine.parseLoop (.allow, [], []) results with ⟨d, rs, ap⟩
  simp [hE]

/-- C5 (confirmed).  `parse_decision` implements the strict
DENY > REQUIRE_APPROVAL > ALLOW precedence: the decision is DENY iff some
query result yields a non-empty `deny` array or `deny = true` (regardless of
`require_approval`), else REQUIRE_APPROVAL iff some result yields a non-empty
`require_approval` array or `require_approval = true`, else ALLOW; every deny
string populates the reasons, and when the decision is REQUIRE_APPROVAL every
approver string populates `required_approvers`. -/
theorem parse_decision_precedence (results : List (Option PolicyEngine.QueryBinding)) :
    ((PolicyEngine.parse_decision results).decision = .deny ↔
      results.any PolicyEngine.denySignal = true) ∧
    ((PolicyEngine.parse_decision results).decision = .requireApproval ↔
      (results.any PolicyEngine.denySignal = false ∧
       results.any PolicyEngine.raSignal = true)) ∧
    ((PolicyEngine.parse_decision results).decision = .allow ↔
      (results.any PolicyEngine.denySignal = false ∧
       results.any PolicyEngine.raSignal = false)) ∧
    (∀ a : String, a ∈ PolicyEngine.denyStrs results →
      a ∈ (PolicyEngine.parse_decision results).reasons) ∧
    (∀ a : String, (PolicyEngine.parse_decision results).decision = .requireApproval →
      a ∈ PolicyEngine.raStrs results →
      a ∈ (PolicyEngine.parse_decision results).required_approvers) := by
  rw [parse_decision_eq]
  dsimp only
  have hfst : (PolicyEngine.parseLoop (.allow, [], []) results).1 =
      if results.any PolicyEngine.denySignal = true then .deny
      else if results.any PolicyEngine.raSignal = true then .requireApproval
      else .allow := by
    simpa using parseLoop_fst results (.allow, [], [])
  refine ⟨?_, ?_, ?_, ?_, ?_⟩
  · rw [hfst]
    by_cases h1 : results.any PolicyEngine.denySignal = true <;>
      by_cases h2 : results.any PolicyEngine.raSignal = true <;> simp [h1, h2]
  · rw [hfst]
    by_cases h1 : results.any PolicyEngine.denySignal = true <;>
      by_cases h2 : results.any PolicyEngine.raSignal = true <;> simp [h1, h2]
  · rw [hfst]
    by_cases h1 : results.any PolicyEngine.denySignal = true <;>
      by_cases h2 : results.any PolicyEngine.raSignal = true <;> simp [h1, h2]
  · intro a ha
    exact parseLoop_reasons_complete results (.allow, [], []) a ha
  · intro a hra ha
    refine parseLoop_approvers_complete results (.allow, [], []) a ?_ ha
    rw [hra]
    intro hcontra
    cases hcontra

/-- Witness for C5, at the spec's scenario-6 input: the decision is DENY with
`kyc_missing` among the reasons, despite `require_approval = ["admin"]`. -/
theorem parse_decision_precedence_witness :
    sampleResults.any PolicyEngine.denySignal = true ∧
    (PolicyEngine.parse_decision sampleResults).decision = .deny ∧
    "kyc_missing" ∈ (PolicyEngine.parse_decision sampleResults).reasons :=
  ⟨by decide,
   (parse_decision_precedence sampleResults).1.mpr (by decide),
   (parse_decision_precedence sampleResults).2.2.2.1 "kyc_missing" (by decide)⟩

/-- C8 (confirmed).  The two Merkle-root implementations disagree: the shared
crypto module hashes a single leaf with itself while the ledger returns a
single leaf unchanged, so on the one-element list `["ab"]` the two roots
differ. -/
theorem merkle_impls_disagree :
    (∀ h : String,
      SharedCrypto.compute_merkle_root [h] = some (sha256_hex (strBytes (h ++ h))) ∧
      Ledger.build_merkle_root [h] = h) ∧
    SharedCrypto.compute_merkle_root ["ab"] ≠ some (Ledger.build_merkle_root ["ab"]) := by
  constructor
  · intro h
    constructor
    · simp [SharedCrypto.compute_merkle_root, SharedCrypto.build_merkle_tree,
        SharedCrypto.buildTreeAux, SharedCrypto.pairNodes, SharedCrypto.combineNodes,
        SharedCrypto.MerkleNode.hash]
    · simp [Ledger.build_merkle_root]
  · intro hcontra
    have hab : Ledger.build_merkle_root ["ab"] = "ab" := by
      simp [Ledger.build_merkle_root]
    rw [hab] at hcontra
    have : SharedCrypto.compute_merkle_root ["ab"] ≠ some "ab" := by decide
    exact this hcontra

/-- C10 (confirmed).  The two event-hash implementations disagree on a typical
input: with identical textual fields (sequence 1, a policy-decision event, the
same UUID, the canonical empty payload, the genesis previous hash and the same
RFC3339 timestamp), the ledger's byte layout and the shared module's
colon-joined text produce different digests, and the shared module's
`verify_event_hash` therefore rejects the digest the ledger's append path
stores. -/
theorem event_hash_impls_disagree :
    Ledger.compute_event_hash 1 .policyDecision sampleActorBytes emptyJson zeros64 sampleTs ≠
      SharedCrypto.compute_event_hash 1 "PolicyDecision" sampleActorStr emptyJson zeros64 sampleTs ∧
    SharedCrypto.verify_event_hash 1 "PolicyDecision" sampleActorStr emptyJson zeros64 sampleTs
      (Ledger.compute_event_hash 1 .policyDecision sampleActorBytes emptyJson zeros64 sampleTs)
      = false := by
  constructor
  · decide
  · decide

end Guardrail
